import Mathlib

/-
  Shallow embedding of src/snowfall.js (SnowFall particle simulation).

  Modelling conventions:
  - JavaScript numbers are modelled as exact rationals (ℚ).
  - Math.sin / Math.cos / Math.sqrt / Math.atan2 and Date.now() are modelled
    as parameters collected in a MathEnv record; the theorems below either
    hold for every such environment or carry the minimal specification of
    the function they need (stated as a hypothesis).
  - Math.random() is modelled as an explicit stream of draws (Rng); each
    call consumes the draw at the current index and advances the index.
    Faithfulness to Math.random corresponds to every draw lying in [0, 1),
    which is the hypothesis Rng.Bounded.
  - DOM concerns (canvas creation, event listeners, selector resolution,
    requestAnimationFrame, drawing) are external collaborators; the element
    rectangles consumed by updateObstacles and the window size consumed by
    resize are inputs (WindowEnv).
-/

/-- The stream of Math.random() results together with a cursor. -/
structure Rng where
  stream : ℕ → ℚ
  idx : ℕ

/-- One call of Math.random(): the current draw, and the advanced stream. -/
def Rng.next (g : Rng) : ℚ × Rng :=
  (g.stream g.idx, { g with idx := g.idx + 1 })

/-- Every draw of the stream lies in the interval of Math.random, [0, 1). -/
def Rng.Bounded (g : Rng) : Prop :=
  ∀ k, 0 ≤ g.stream k ∧ g.stream k < 1

/-- The simulation-relevant configuration options (snowfall.js lines 16-27).
The purely visual or DOM-level options collectSelectors and zIndex are
external-collaborator concerns and carry no simulation state. -/
structure Config where
  flakeCount : ℕ
  gravity : ℚ
  wind : ℚ
  sizeBase : ℚ
  stickiness : ℚ
  meltSpeed : ℚ
  mouseInteraction : Bool
  mouseRepulsionRadius : ℚ

/-- User-supplied overrides: any subset of the options. -/
structure ConfigOptions where
  flakeCount : Option ℕ := none
  gravity : Option ℚ := none
  wind : Option ℚ := none
  sizeBase : Option ℚ := none
  stickiness : Option ℚ := none
  meltSpeed : Option ℚ := none
  mouseInteraction : Option Bool := none
  mouseRepulsionRadius : Option ℚ := none

/-- The DEFAULTS object (snowfall.js lines 16-27). -/
def DEFAULTS : Config :=
  { flakeCount := 400
    gravity := 7/10
    wind := 1/2
    sizeBase := 3
    stickiness := 9/10
    meltSpeed := 1/200
    mouseInteraction := true
    mouseRepulsionRadius := 150 }

/-- The object-spread merge at snowfall.js line 49: user options override
the defaults field by field. -/
def mergeConfig (o : ConfigOptions) : Config :=
  { flakeCount := o.flakeCount.getD DEFAULTS.flakeCount
    gravity := o.gravity.getD DEFAULTS.gravity
    wind := o.wind.getD DEFAULTS.wind
    sizeBase := o.sizeBase.getD DEFAULTS.sizeBase
    stickiness := o.stickiness.getD DEFAULTS.stickiness
    meltSpeed := o.meltSpeed.getD DEFAULTS.meltSpeed
    mouseInteraction := o.mouseInteraction.getD DEFAULTS.mouseInteraction
    mouseRepulsionRadius := o.mouseRepulsionRadius.getD DEFAULTS.mouseRepulsionRadius }

/-- An obstacle rectangle (snowfall.js lines 117-122). -/
structure Obstacle where
  left : ℚ
  right : ℚ
  top : ℚ
  width : ℚ

/-- A getBoundingClientRect result for a collected element. -/
structure Rect where
  left : ℚ
  right : ℚ
  top : ℚ
  bottom : ℚ
  width : ℚ

/-- External window inputs consumed by resize/updateObstacles: the viewport
size and the rectangles of the elements the collect selectors resolve to. -/
structure WindowEnv where
  innerWidth : ℚ
  innerHeight : ℚ
  rects : List Rect

/-- The deterministic stand-ins for the browser math library used by
Snowflake.update: Math.sin, Math.cos, Math.sqrt, Math.atan2 and the
Date.now() timestamp of the current frame. -/
structure MathEnv where
  sin : ℚ → ℚ
  cos : ℚ → ℚ
  sqrt : ℚ → ℚ
  atan2 : ℚ → ℚ → ℚ
  now : ℚ

/-- The per-particle state (snowfall.js lines 151-168).  The back
reference this.sys is passed explicitly to every method instead. -/
structure Snowflake where
  z : ℚ
  size : ℚ
  x : ℚ
  y : ℚ
  vy : ℚ
  vx : ℚ
  alpha : ℚ
  meltAlpha : ℚ
  landed : Bool
  stackOffset : ℚ

/-- The simulation state owned by the SnowSystem instance
(snowfall.js lines 29-40); canvas/ctx are external. -/
structure SysState where
  config : Config
  flakes : List Snowflake
  obstacles : List Obstacle
  width : ℚ
  height : ℚ
  mouseX : ℚ
  mouseY : ℚ
  isRunning : Bool

/-- Snowflake.prototype.init (snowfall.js lines 151-169).  Draws are
consumed in source order: z, x, (y only when isNew is false), vy, vx,
stackOffset. -/
def Snowflake.init (sys : SysState) (isNew : Bool) (g : Rng) : Snowflake × Rng :=
  let (rz, g1) := g.next
  let z := rz * (9/10) + 1/10
  let size := sys.config.sizeBase * z
  let (rx, g2) := g1.next
  let x := rx * sys.width
  let yp : ℚ × Rng :=
    if isNew then ((-20 : ℚ), g2)
    else
      let (ry, g3) := g2.next
      (ry * sys.height, g3)
  let (rvy, g4) := yp.2.next
  let vy := sys.config.gravity * z + rvy * (1/2)
  let (rvx, g5) := g4.next
  let vx := (rvx - 1/2) * (1/2)
  let (rso, g6) := g5.next
  ({ z := z, size := size, x := x, y := yp.1, vy := vy, vx := vx,
     alpha := 1, meltAlpha := 1, landed := false, stackOffset := rso * 4 }, g6)

/-- Sections 2-4 of Snowflake.prototype.update (snowfall.js lines 179-206):
wind and sinusoidal drift, the mouse repulsion force, position integration,
and the horizontal wrap.  The vertical bottom-edge check (line 207) and the
collision pass are separate so the update pipeline can be stated phase by
phase. -/
def Snowflake.move (env : MathEnv) (sys : SysState) (f : Snowflake) : Snowflake :=
  let conf := sys.config
  let dx0 := f.vx + conf.wind * f.z
  let dx1 := dx0 + env.sin (f.y * (1/100) + env.now * (2/1000)) * (1/2) * f.z
  let dy0 := f.vy
  let d : ℚ × ℚ :=
    if conf.mouseInteraction then
      let distX := f.x - sys.mouseX
      let distY := f.y - sys.mouseY
      let dist := env.sqrt (distX * distX + distY * distY)
      if dist < conf.mouseRepulsionRadius then
        let force := (conf.mouseRepulsionRadius - dist) / conf.mouseRepulsionRadius
        let angle := env.atan2 distY distX
        (dx1 + env.cos angle * force * 5 * f.z, dy0 + env.sin angle * force * 5 * f.z)
      else (dx1, dy0)
    else (dx1, dy0)
  let f1 := { f with x := f.x + d.1, y := f.y + d.2 }
  let f2 := if f1.x > sys.width + 5 then { f1 with x := (-5 : ℚ) } else f1
  if f2.x < -5 then { f2 with x := sys.width + 5 } else f2

/-- The body of the collision loop for one obstacle
(snowfall.js lines 213-224).  A random draw is consumed exactly when both
the horizontal-span test and the landing-window test pass. -/
def Snowflake.collideStep (conf : Config) (p : Snowflake × Rng) (obs : Obstacle) :
    Snowflake × Rng :=
  let f := p.1
  if obs.left < f.x ∧ f.x < obs.right then
    let landY := obs.top - f.size * (1/2) + f.stackOffset
    if landY ≤ f.y ∧ f.y ≤ landY + 10 then
      let (r, g) := p.2.next
      if r < conf.stickiness then ({ f with landed := true, y := landY }, g)
      else (f, g)
    else p
  else p

/-- Section 5 of Snowflake.prototype.update (snowfall.js lines 209-225):
the z > 0.4 gate and the loop over every obstacle, in order, with no
early exit. -/
def Snowflake.collide (sys : SysState) (p : Snowflake × Rng) : Snowflake × Rng :=
  if p.1.z > 2/5 then sys.obstacles.foldl (Snowflake.collideStep sys.config) p
  else p

/-- Snowflake.prototype.update (snowfall.js lines 171-226).  The landed
branch decrements meltAlpha and respawns (returning early) once the
decremented value is ≤ 0; the falling branch moves, respawns at the bottom
edge without returning, and then runs the collision pass. -/
def Snowflake.update (env : MathEnv) (sys : SysState) (f : Snowflake) (g : Rng) :
    Snowflake × Rng :=
  if f.landed then
    let m := f.meltAlpha - sys.config.meltSpeed
    if m ≤ 0 then Snowflake.init sys true g else ({ f with meltAlpha := m }, g)
  else
    let f1 := Snowflake.move env sys f
    let p := if f1.y > sys.height then Snowflake.init sys true g else (f1, g)
    Snowflake.collide sys p

/-- Iterated frames for one particle: at step k the frame uses the math
environment envs k and the system snapshot syss k (obstacles, mouse and
timestamp may change between frames). -/
def Snowflake.updateSteps (envs : ℕ → MathEnv) (syss : ℕ → SysState) :
    ℕ → Snowflake × Rng → Snowflake × Rng
  | 0, p => p
  | n + 1, p =>
      Snowflake.updateSteps envs syss n (Snowflake.update (envs n) (syss n) p.1 p.2)

/-- The depth/size consistency predicate of the specification:
0.1 ≤ z < 1.0 and size = sizeBase * z. -/
def SizeInv (conf : Config) (f : Snowflake) : Prop :=
  1/10 ≤ f.z ∧ f.z < 1 ∧ f.size = conf.sizeBase * f.z

instance (conf : Config) (f : Snowflake) : Decidable (SizeInv conf f) := by
  unfold SizeInv
  infer_instance

/-- A flake passes both collision tests of an obstacle: x strictly inside
the horizontal span and y inside the 10-unit landing window below
landY = top - size/2 + stackOffset. -/
def Qualifies (obs : Obstacle) (f : Snowflake) : Prop :=
  obs.left < f.x ∧ f.x < obs.right ∧
  obs.top - f.size * (1/2) + f.stackOffset ≤ f.y ∧
  f.y ≤ obs.top - f.size * (1/2) + f.stackOffset + 10

instance (obs : Obstacle) (f : Snowflake) : Decidable (Qualifies obs f) := by
  unfold Qualifies
  infer_instance

/-- The push loop of spawnFlakes (snowfall.js lines 128-130): n flakes
constructed in order, each with isNew = false. -/
def SnowSystem.spawnFlakesAux (sys : SysState) : ℕ → Rng → List Snowflake × Rng
  | 0, g => ([], g)
  | n + 1, g =>
      let (f, g1) := Snowflake.init sys false g
      let (rest, g2) := SnowSystem.spawnFlakesAux sys n g1
      (f :: rest, g2)

/-- SnowSystem.prototype.spawnFlakes (snowfall.js lines 126-131). -/
def SnowSystem.spawnFlakes (sys : SysState) (g : Rng) : List Snowflake × Rng :=
  SnowSystem.spawnFlakesAux sys sys.config.flakeCount g

/-- SnowSystem.prototype.updateObstacles (snowfall.js lines 95-124):
element rectangles are mapped to obstacles, dropping the ones entirely
above or below the viewport.  An empty selector set corresponds to an
empty rects list. -/
def SnowSystem.updateObstacles (height : ℚ) (rects : List Rect) : List Obstacle :=
  (rects.filter (fun r => ¬(r.bottom < 0 ∨ r.top > height))).map
    (fun r => { left := r.left, right := r.right, top := r.top, width := r.width })

/-- The SnowSystem constructor (snowfall.js lines 30-40).  The source
initializes config to an empty object that is never read before init
merges the real configuration; DEFAULTS stands in for that placeholder. -/
def SnowSystem.new : SysState :=
  { config := DEFAULTS
    flakes := []
    obstacles := []
    width := 0
    height := 0
    mouseX := -999
    mouseY := -999
    isRunning := false }

/-- SnowSystem.prototype.init (snowfall.js lines 46-58): the re-entrancy
guard, the configuration merge, resize (viewport size and obstacle
refresh), the particle spawn, and the isRunning flag.  createCanvas,
bindEvents and loop are external DOM/scheduler effects. -/
def SnowSystem.init (s : SysState) (options : ConfigOptions) (win : WindowEnv)
    (g : Rng) : SysState × Rng :=
  if s.isRunning then (s, g)
  else
    let config := mergeConfig options
    let s1 : SysState :=
      { s with config := config, width := win.innerWidth, height := win.innerHeight }
    let s2 : SysState :=
      { s1 with obstacles := SnowSystem.updateObstacles s1.height win.rects }
    let (flakes, g1) := SnowSystem.spawnFlakes s2 g
    ({ s2 with flakes := flakes, isRunning := true }, g1)

/-
  Concrete instances used to evaluate the development on closed inputs.
-/

/-- A frame environment with the drift oscillation at a zero of sin and the
pointer-independent functions at plausible values; used by runs in which the
mouse branch is disabled or irrelevant. -/
def plainEnv : MathEnv :=
  { sin := fun _ => 0, cos := fun _ => 1, sqrt := fun _ => 0, atan2 := fun _ _ => 0,
    now := 0 }

/-- plainEnv with a square root exact at the one radicand the repulsion
run below evaluates: 1029 * 1029 + 980 * 980 = 2019241 = 1421 * 1421
(a 20-21-29 Pythagorean triple scaled by 49), so Math.sqrt returns
exactly 1421 there. -/
def exactSqrtEnv : MathEnv :=
  { plainEnv with sqrt := fun q => if q = 2019241 then 1421 else q }

/-- A square-root stand-in satisfying the smallness specification used by
the repulsion bound: it is nonnegative and being below a bound c forces the
radicand below c squared. -/
def specSqrt : ℚ → ℚ := fun q => if q ≤ 1 then 1 else q

/-- plainEnv with the spec-satisfying square root. -/
def specEnv : MathEnv :=
  { plainEnv with sqrt := specSqrt }

/-- The constant draw stream 1/2. -/
def halfRng : Rng :=
  { stream := fun _ => 1/2, idx := 0 }

/-- A deterministic test configuration: stickiness 1, no wind, mouse off. -/
def testConfig : Config :=
  { flakeCount := 1, gravity := 7/10, wind := 0, sizeBase := 3, stickiness := 1,
    meltSpeed := 1/200, mouseInteraction := false, mouseRepulsionRadius := 150 }

/-- A running system with no obstacles. -/
def meltSys : SysState :=
  { config := testConfig, flakes := [], obstacles := [], width := 800, height := 600,
    mouseX := -999, mouseY := -999, isRunning := true }

/-- A landed flake one frame away from finishing its melt. -/
def meltingFlake : Snowflake :=
  { z := 1/2, size := 3/2, x := 50, y := 100, vy := 1, vx := 0, alpha := 1,
    meltAlpha := 1/1000, landed := true, stackOffset := 0 }

/-- A landed flake with plenty of melt opacity left. -/
def meltingFlakeSlow : Snowflake :=
  { meltingFlake with meltAlpha := 1/2 }

/-- Obstacles sharing a horizontal span, with tops at 50, 48 and 47. -/
def obsTop50 : Obstacle := { left := 0, right := 100, top := 50, width := 100 }

def obsTop48 : Obstacle := { left := 0, right := 100, top := 48, width := 100 }

def obsTop47 : Obstacle := { left := 0, right := 100, top := 47, width := 100 }

/-- Two overlapping obstacles, tops 50 and 48. -/
def twoObsSys : SysState := { meltSys with obstacles := [obsTop50, obsTop48] }

/-- A single obstacle, top 50. -/
def oneObsSys : SysState := { meltSys with obstacles := [obsTop50] }

/-- Two overlapping obstacles, tops 50 and 47. -/
def overlapSys : SysState := { meltSys with obstacles := [obsTop50, obsTop47] }

/-- A falling flake one integration step below the landing line of
obsTop50: after moving by vy = 1 it sits exactly at landY = 197/4. -/
def fallingFlake : Snowflake :=
  { z := 1/2, size := 3/2, x := 50, y := 193/4, vy := 1, vx := 0, alpha := 1,
    meltAlpha := 1, landed := false, stackOffset := 0 }

/-- A not-yet-started system for exercising spawnFlakes and init. -/
def spawnSys : SysState :=
  { config := testConfig, flakes := [], obstacles := [], width := 800, height := 100,
    mouseX := -999, mouseY := -999, isRunning := false }

/-- An obstacle whose landing window reaches above the top edge, so that a
freshly respawned flake at y = -20 is inside it. -/
def topObs : Obstacle := { left := 0, right := 800, top := -22, width := 800 }

/-- A running system with the near-top obstacle. -/
def topObsSys : SysState := { meltSys with obstacles := [topObs] }

/-- A falling flake at the bottom edge: its next integration step leaves
the viewport. -/
def bottomFlake : Snowflake :=
  { z := 1/2, size := 3/2, x := 100, y := 600, vy := 1, vx := 0, alpha := 1,
    meltAlpha := 1, landed := false, stackOffset := 0 }

/-- A system with mouse interaction on and a repulsion radius so large
that the sentinel pointer position reaches into the viewport. -/
def wideSys : SysState :=
  { meltSys with
    config := { testConfig with mouseInteraction := true, mouseRepulsionRadius := 2000 } }

/-- wideSys with mouse interaction disabled. -/
def wideSysOff : SysState :=
  { wideSys with config := { wideSys.config with mouseInteraction := false } }

/-- A system with mouse interaction on and the default repulsion radius. -/
def sentinelSys : SysState :=
  { meltSys with config := { testConfig with mouseInteraction := true } }

/-- A falling flake at the viewport origin. -/
def originFlake : Snowflake :=
  { z := 1/2, size := 3/2, x := 0, y := 0, vy := 1, vx := 0, alpha := 1,
    meltAlpha := 1, landed := false, stackOffset := 0 }

/-- A second landed flake past the end of its melt, at another position. -/
def meltingFlake2 : Snowflake :=
  { meltingFlake with x := 70, meltAlpha := 1/500 }

/-- A falling flake inside the tracked region at distance exactly 1421
from the sentinel pointer at (-999, -999). -/
def farFlake : Snowflake :=
  { originFlake with x := 30, y := -19 }

/-- A viewport with no collected elements. -/
def plainWin : WindowEnv :=
  { innerWidth := 800, innerHeight := 600, rects := [] }

/-- The empty option set: every configuration field falls back to its
default. -/
def emptyOptions : ConfigOptions := {}


/-
  Characterization and preservation lemmas.
-/

/-- A new spawn reads five draws, in the order z, x, vy, vx, stackOffset,
and produces exactly the fields of snowfall.js lines 151-168 with y = -20. -/
lemma Snowflake.init_true_eq (sys : SysState) (g : Rng) :
    Snowflake.init sys true g =
      ({ z := g.stream g.idx * (9/10) + 1/10,
         size := sys.config.sizeBase * (g.stream g.idx * (9/10) + 1/10),
         x := g.stream (g.idx + 1) * sys.width,
         y := -20,
         vy := sys.config.gravity * (g.stream g.idx * (9/10) + 1/10) +
           g.stream (g.idx + 2) * (1/2),
         vx := (g.stream (g.idx + 3) - 1/2) * (1/2),
         alpha := 1, meltAlpha := 1, landed := false,
         stackOffset := g.stream (g.idx + 4) * 4 }, { g with idx := g.idx + 5 }) :=
  rfl

/-- A mid-field spawn reads six draws, with y drawn across the height. -/
lemma Snowflake.init_false_eq (sys : SysState) (g : Rng) :
    Snowflake.init sys false g =
      ({ z := g.stream g.idx * (9/10) + 1/10,
         size := sys.config.sizeBase * (g.stream g.idx * (9/10) + 1/10),
         x := g.stream (g.idx + 1) * sys.width,
         y := g.stream (g.idx + 2) * sys.height,
         vy := sys.config.gravity * (g.stream g.idx * (9/10) + 1/10) +
           g.stream (g.idx + 3) * (1/2),
         vx := (g.stream (g.idx + 4) - 1/2) * (1/2),
         alpha := 1, meltAlpha := 1, landed := false,
         stackOffset := g.stream (g.idx + 5) * 4 }, { g with idx := g.idx + 6 }) :=
  rfl

lemma Snowflake.init_stream (sys : SysState) (isNew : Bool) (g : Rng) :
    ((Snowflake.init sys isNew g).2).stream = g.stream := by
  cases isNew <;> rfl

lemma Snowflake.collideStep_stream (conf : Config) (p : Snowflake × Rng)
    (obs : Obstacle) :
    ((Snowflake.collideStep conf p obs).2).stream = p.2.stream := by
  unfold Snowflake.collideStep
  dsimp only [Rng.next]
  split_ifs <;> rfl

lemma collideFold_stream (conf : Config) :
    ∀ (l : List Obstacle) (p : Snowflake × Rng),
      ((l.foldl (Snowflake.collideStep conf) p).2).stream = p.2.stream := by
  intro l
  induction l with
  | nil => intro p; rfl
  | cons o l ih =>
      intro p
      rw [List.foldl_cons, ih, Snowflake.collideStep_stream]

lemma Snowflake.collide_stream (sys : SysState) (p : Snowflake × Rng) :
    ((Snowflake.collide sys p).2).stream = p.2.stream := by
  unfold Snowflake.collide
  split
  · exact collideFold_stream _ _ _
  · rfl

lemma Snowflake.update_stream (env : MathEnv) (sys : SysState) (f : Snowflake)
    (g : Rng) :
    ((Snowflake.update env sys f g).2).stream = g.stream := by
  unfold Snowflake.update
  split
  · dsimp only
    split
    · exact Snowflake.init_stream _ _ _
    · rfl
  · rw [Snowflake.collide_stream]
    split
    · exact Snowflake.init_stream _ _ _
    · rfl

/-- Sections 2-4 only move the particle: every field other than the
position is untouched. -/
lemma Snowflake.move_shape (env : MathEnv) (sys : SysState) (f : Snowflake) :
    ∃ a b, Snowflake.move env sys f = { f with x := a, y := b } := by
  unfold Snowflake.move
  dsimp only
  split_ifs <;> exact ⟨_, _, rfl⟩

/-- One collision-loop step only writes y and landed (and advances the
draw cursor). -/
lemma Snowflake.collideStep_shape (conf : Config) (p : Snowflake × Rng)
    (obs : Obstacle) :
    ∃ a b g', Snowflake.collideStep conf p obs = ({ p.1 with y := a, landed := b }, g') := by
  unfold Snowflake.collideStep
  dsimp only [Rng.next]
  split_ifs <;> exact ⟨_, _, _, rfl⟩

lemma collideFold_shape (conf : Config) :
    ∀ (l : List Obstacle) (p : Snowflake × Rng),
      ∃ a b g', l.foldl (Snowflake.collideStep conf) p = ({ p.1 with y := a, landed := b }, g') := by
  intro l
  induction l with
  | nil => intro p; exact ⟨p.1.y, p.1.landed, p.2, rfl⟩
  | cons o l ih =>
      intro p
      obtain ⟨a2, b2, g2, h2⟩ := ih (Snowflake.collideStep conf p o)
      obtain ⟨a1, b1, g1, h1⟩ := Snowflake.collideStep_shape conf p o
      rw [List.foldl_cons, h2, h1]
      exact ⟨a2, b2, g2, rfl⟩

lemma Snowflake.collide_shape (sys : SysState) (p : Snowflake × Rng) :
    ∃ a b g', Snowflake.collide sys p = ({ p.1 with y := a, landed := b }, g') := by
  unfold Snowflake.collide
  split
  · exact collideFold_shape _ _ _
  · exact ⟨p.1.y, p.1.landed, p.2, rfl⟩

/-- The collision loop never clears the landed flag. -/
lemma Snowflake.collideStep_landed (conf : Config) (p : Snowflake × Rng)
    (obs : Obstacle) (h : p.1.landed = true) :
    ((Snowflake.collideStep conf p obs).1).landed = true := by
  unfold Snowflake.collideStep
  dsimp only [Rng.next]
  split_ifs <;> simp [h]

lemma collideFold_landed (conf : Config) :
    ∀ (l : List Obstacle) (p : Snowflake × Rng), p.1.landed = true →
      ((l.foldl (Snowflake.collideStep conf) p).1).landed = true := by
  intro l
  induction l with
  | nil => intro p h; exact h
  | cons o l ih =>
      intro p h
      rw [List.foldl_cons]
      exact ih _ (Snowflake.collideStep_landed conf p o h)

/-- An obstacle failing one of the two tests leaves the particle and the
draw stream untouched. -/
lemma Snowflake.collideStep_of_not (conf : Config) (p : Snowflake × Rng)
    (obs : Obstacle) (h : ¬ Qualifies obs p.1) :
    Snowflake.collideStep conf p obs = p := by
  unfold Snowflake.collideStep
  dsimp only [Rng.next]
  split_ifs with h1 h2 h3
  · exact absurd ⟨h1.1, h1.2, h2.1, h2.2⟩ h
  · exact absurd ⟨h1.1, h1.2, h2.1, h2.2⟩ h
  · rfl
  · rfl

/-- A qualifying obstacle whose stickiness roll succeeds snaps the
particle onto its landing line. -/
lemma Snowflake.collideStep_of_qualifies (conf : Config) (p : Snowflake × Rng)
    (obs : Obstacle) (hq : Qualifies obs p.1)
    (hr : p.2.stream p.2.idx < conf.stickiness) :
    Snowflake.collideStep conf p obs =
      ({ p.1 with
          landed := true
          y := obs.top - p.1.size * (1/2) + p.1.stackOffset },
       { p.2 with idx := p.2.idx + 1 }) := by
  unfold Snowflake.collideStep
  dsimp only [Rng.next]
  rw [if_pos ⟨hq.1, hq.2.1⟩, if_pos ⟨hq.2.2.1, hq.2.2.2⟩, if_pos hr]

/-- With stickiness at least 1 and draws below 1, the collision loop lands
the particle as soon as some obstacle in the list qualifies against the
state the loop reaches it with. -/
lemma collideFold_lands (conf : Config) (hs : 1 ≤ conf.stickiness) :
    ∀ (l : List Obstacle) (p : Snowflake × Rng), p.2.Bounded →
      (∃ obs ∈ l, Qualifies obs p.1) →
      ((l.foldl (Snowflake.collideStep conf) p).1).landed = true := by
  intro l
  induction l with
  | nil =>
      intro p _ hex
      rcases hex with ⟨o, ho, _⟩
      exact absurd ho (List.not_mem_nil o)
  | cons o l ih =>
      intro p hb hex
      rw [List.foldl_cons]
      by_cases hq : Qualifies o p.1
      · have hr : p.2.stream p.2.idx < conf.stickiness :=
          lt_of_lt_of_le (hb p.2.idx).2 hs
        rw [Snowflake.collideStep_of_qualifies conf p o hq hr]
        exact collideFold_landed conf l _ rfl
      · rw [Snowflake.collideStep_of_not conf p o hq]
        rcases hex with ⟨o', ho', hq'⟩
        rcases List.mem_cons.mp ho' with h | h
        · exact absurd (h ▸ hq') hq
        · exact ih p hb ⟨o', h, hq'⟩

/-- The four regimes of Snowflake.update, as rewriting lemmas. -/
lemma Snowflake.update_landed_respawn (env : MathEnv) (sys : SysState)
    (f : Snowflake) (g : Rng) (h : f.landed = true)
    (hm : f.meltAlpha - sys.config.meltSpeed ≤ 0) :
    Snowflake.update env sys f g = Snowflake.init sys true g := by
  simp [Snowflake.update, h, hm]

lemma Snowflake.update_landed_melt (env : MathEnv) (sys : SysState)
    (f : Snowflake) (g : Rng) (h : f.landed = true)
    (hm : sys.config.meltSpeed < f.meltAlpha) :
    Snowflake.update env sys f g =
      ({ f with meltAlpha := f.meltAlpha - sys.config.meltSpeed }, g) := by
  have hm' : ¬ (f.meltAlpha - sys.config.meltSpeed ≤ 0) := by
    intro hc
    linarith
  simp [Snowflake.update, h, hm']

lemma Snowflake.update_falling_respawn (env : MathEnv) (sys : SysState)
    (f : Snowflake) (g : Rng) (h : f.landed = false)
    (hy : (Snowflake.move env sys f).y > sys.height) :
    Snowflake.update env sys f g = Snowflake.collide sys (Snowflake.init sys true g) := by
  simp [Snowflake.update, h, hy]

lemma Snowflake.update_falling_stay (env : MathEnv) (sys : SysState)
    (f : Snowflake) (g : Rng) (h : f.landed = false)
    (hy : ¬ (Snowflake.move env sys f).y > sys.height) :
    Snowflake.update env sys f g = Snowflake.collide sys (Snowflake.move env sys f, g) := by
  simp [Snowflake.update, h, hy]

/-- Both spawn modes establish the depth/size invariant. -/
lemma Snowflake.init_sizeInv (sys : SysState) (isNew : Bool) (g : Rng)
    (hb : g.Bounded) :
    SizeInv sys.config (Snowflake.init sys isNew g).1 := by
  obtain ⟨h0, h1⟩ := hb g.idx
  cases isNew
  · rw [Snowflake.init_false_eq]
    exact ⟨by nlinarith, by nlinarith, rfl⟩
  · rw [Snowflake.init_true_eq]
    exact ⟨by nlinarith, by nlinarith, rfl⟩

/-- One frame preserves the depth/size invariant. -/
lemma Snowflake.update_sizeInv (env : MathEnv) (sys : SysState) (f : Snowflake)
    (g : Rng) (hb : g.Bounded) (hf : SizeInv sys.config f) :
    SizeInv sys.config (Snowflake.update env sys f g).1 := by
  by_cases h : f.landed = true
  · by_cases hm : f.meltAlpha - sys.config.meltSpeed ≤ 0
    · rw [Snowflake.update_landed_respawn env sys f g h hm]
      exact Snowflake.init_sizeInv sys true g hb
    · have hm' : sys.config.meltSpeed < f.meltAlpha := by
        push_neg at hm
        linarith
      rw [Snowflake.update_landed_melt env sys f g h hm']
      exact hf
  · have h' : f.landed = false := by simpa using h
    by_cases hy : (Snowflake.move env sys f).y > sys.height
    · rw [Snowflake.update_falling_respawn env sys f g h' hy]
      obtain ⟨a, b, g', hc⟩ := Snowflake.collide_shape sys (Snowflake.init sys true g)
      rw [hc]
      exact Snowflake.init_sizeInv sys true g hb
    · rw [Snowflake.update_falling_stay env sys f g h' hy]
      obtain ⟨a, b, g', hc⟩ := Snowflake.collide_shape sys (Snowflake.move env sys f, g)
      rw [hc]
      obtain ⟨mx, my, hmv⟩ := Snowflake.move_shape env sys f
      dsimp only
      rw [hmv]
      exact hf

/-- Any number of frames preserve the depth/size invariant, even with the
obstacle set, the pointer and the timestamp changing between frames, as
long as the configuration stays fixed. -/
lemma Snowflake.updateSteps_sizeInv (envs : ℕ → MathEnv) (syss : ℕ → SysState)
    (conf : Config) (hc : ∀ k, (syss k).config = conf) :
    ∀ (n : ℕ) (p : Snowflake × Rng), p.2.Bounded → SizeInv conf p.1 →
      SizeInv conf (Snowflake.updateSteps envs syss n p).1 := by
  intro n
  induction n with
  | zero => intro p _ hf; exact hf
  | succ n ih =>
      intro p hb hf
      show SizeInv conf
        (Snowflake.updateSteps envs syss n
          (Snowflake.update (envs n) (syss n) p.1 p.2)).1
      apply ih
      · intro k
        rw [Snowflake.update_stream]
        exact hb k
      · have hf' : SizeInv (syss n).config p.1 := by rw [hc n]; exact hf
        have h2 := Snowflake.update_sizeInv (envs n) (syss n) p.1 p.2 hb hf'
        rw [hc n] at h2
        exact h2

/-- Unrolling one iteration of the spawn loop. -/
lemma SnowSystem.spawnFlakesAux_succ (sys : SysState) (n : ℕ) (g : Rng) :
    SnowSystem.spawnFlakesAux sys (n + 1) g =
      ((Snowflake.init sys false g).1 ::
        (SnowSystem.spawnFlakesAux sys n (Snowflake.init sys false g).2).1,
       (SnowSystem.spawnFlakesAux sys n (Snowflake.init sys false g).2).2) :=
  rfl

/-- The spawn loop produces exactly n flakes, each not landed and each
with a mid-field y drawn across the full height. -/
lemma SnowSystem.spawnFlakesAux_spec (sys : SysState) :
    ∀ (n : ℕ) (g : Rng), g.Bounded →
      ((SnowSystem.spawnFlakesAux sys n g).1.length = n ∧
       ∀ f ∈ (SnowSystem.spawnFlakesAux sys n g).1,
         f.landed = false ∧ ∃ r, 0 ≤ r ∧ r < 1 ∧ f.y = r * sys.height) := by
  intro n
  induction n with
  | zero =>
      intro g _
      exact ⟨rfl, by intro f hf; exact absurd hf (List.not_mem_nil f)⟩
  | succ n ih =>
      intro g hb
      have hb' : (Snowflake.init sys false g).2.Bounded := by
        intro k
        rw [Snowflake.init_stream]
        exact hb k
      rw [SnowSystem.spawnFlakesAux_succ]
      dsimp only
      constructor
      · rw [List.length_cons, (ih _ hb').1]
      · intro f hf
        rcases List.mem_cons.mp hf with h | h
        · rw [h, Snowflake.init_false_eq]
          exact ⟨rfl, g.stream (g.idx + 2), (hb _).1, (hb _).2, rfl⟩
        · exact (ih _ hb').2 f h

/-- A start call on a running system returns the state untouched. -/
lemma SnowSystem.init_of_running (s : SysState) (o : ConfigOptions)
    (w : WindowEnv) (g : Rng) (h : s.isRunning = true) :
    SnowSystem.init s o w g = (s, g) := by
  simp [SnowSystem.init, h]

/-- A start call always leaves the system marked running. -/
lemma SnowSystem.init_isRunning (s : SysState) (o : ConfigOptions)
    (w : WindowEnv) (g : Rng) :
    ((SnowSystem.init s o w g).1).isRunning = true := by
  unfold SnowSystem.init
  split_ifs with h
  · exact h
  · rfl

/-- With mouse interaction disabled, the movement phase never reads the
pointer position. -/
lemma Snowflake.move_mouse_irrelevant (env : MathEnv) (sys : SysState)
    (f : Snowflake) (ax ay bx b2y : ℚ) (h : sys.config.mouseInteraction = false) :
    Snowflake.move env { sys with mouseX := ax, mouseY := ay } f =
    Snowflake.move env { sys with mouseX := bx, mouseY := b2y } f := by
  unfold Snowflake.move
  dsimp only
  rw [h]
  simp

/-- When the repulsion test fails, the movement phase agrees with the one
of the same system with mouse interaction disabled. -/
lemma Snowflake.move_no_repulsion (env : MathEnv) (sys : SysState) (f : Snowflake)
    (hdist : ¬ (env.sqrt ((f.x - sys.mouseX) * (f.x - sys.mouseX) +
        (f.y - sys.mouseY) * (f.y - sys.mouseY)) < sys.config.mouseRepulsionRadius)) :
    Snowflake.move env sys f =
      Snowflake.move env
        { sys with config := { sys.config with mouseInteraction := false } } f := by
  unfold Snowflake.move
  dsimp only
  by_cases hmi : sys.config.mouseInteraction = true
  · rw [hmi, if_pos rfl, if_neg hdist]
    simp
  · rw [Bool.not_eq_true] at hmi
    rw [hmi]

/-- A particle inside the tracked region is never inside the repulsion
radius of the sentinel pointer, for any radius up to 994 and any square
root that is nonnegative and compatible with squaring. -/
lemma sentinel_far (env : MathEnv) (sys : SysState) (f : Snowflake)
    (hsq : ∀ q, 0 ≤ q → 0 ≤ env.sqrt q ∧ ∀ c, 0 ≤ c → env.sqrt q < c → q < c * c)
    (hmx : sys.mouseX = -999) (hmy : sys.mouseY = -999)
    (hr : sys.config.mouseRepulsionRadius ≤ 994)
    (hx : -5 ≤ f.x) (hy : -20 ≤ f.y) :
    ¬ (env.sqrt ((f.x - sys.mouseX) * (f.x - sys.mouseX) +
        (f.y - sys.mouseY) * (f.y - sys.mouseY)) < sys.config.mouseRepulsionRadius) := by
  intro hlt
  have hq0 : 0 ≤ (f.x - sys.mouseX) * (f.x - sys.mouseX) +
      (f.y - sys.mouseY) * (f.y - sys.mouseY) :=
    add_nonneg (mul_self_nonneg _) (mul_self_nonneg _)
  obtain ⟨hnn, hspec⟩ := hsq _ hq0
  have hr0 : 0 ≤ sys.config.mouseRepulsionRadius := le_trans hnn (le_of_lt hlt)
  have hlt2 := hspec _ hr0 hlt
  have h1 : sys.config.mouseRepulsionRadius * sys.config.mouseRepulsionRadius ≤
      994 * 994 := mul_le_mul hr hr hr0 (by norm_num)
  have hdx : (994 : ℚ) ≤ f.x - sys.mouseX := by rw [hmx]; linarith
  have h2 : (994 : ℚ) * 994 ≤ (f.x - sys.mouseX) * (f.x - sys.mouseX) :=
    mul_le_mul hdx hdx (by norm_num) (le_trans (by norm_num) hdx)
  have h3 : 0 ≤ (f.y - sys.mouseY) * (f.y - sys.mouseY) := mul_self_nonneg _
  linarith

lemma halfRng_bounded : halfRng.Bounded := by
  intro k
  constructor <;> norm_num [halfRng]

/-- The spec-satisfying square root meets the smallness specification. -/
lemma specSqrt_spec :
    ∀ q, 0 ≤ q → 0 ≤ specSqrt q ∧ ∀ c, 0 ≤ c → specSqrt q < c → q < c * c := by
  intro q hq
  unfold specSqrt
  split_ifs with h
  · refine ⟨by norm_num, ?_⟩
    intro c hc h1
    nlinarith
  · push_neg at h
    refine ⟨by linarith, ?_⟩
    intro c hc h1
    nlinarith

/-
  The claims.
-/

/-- Claim C2 (corrected): one update of a LANDED particle whose
meltOpacity exceeds meltSpeed leaves the position and every other field
unchanged and decreases meltOpacity by exactly meltSpeed.  (As stated,
with only meltOpacity > 0, the claim fails: for 0 < meltOpacity ≤
meltSpeed the particle respawns instead.) -/
theorem C2_landed_melt_step (env : MathEnv) (sys : SysState) (f : Snowflake)
    (g : Rng) (h : f.landed = true) (hm : sys.config.meltSpeed < f.meltAlpha) :
    Snowflake.update env sys f g =
      ({ f with meltAlpha := f.meltAlpha - sys.config.meltSpeed }, g) ∧
    (Snowflake.update env sys f g).1.x = f.x ∧
    (Snowflake.update env sys f g).1.y = f.y ∧
    (Snowflake.update env sys f g).1.meltAlpha =
      f.meltAlpha - sys.config.meltSpeed := by
  have he := Snowflake.update_landed_melt env sys f g h hm
  rw [he]
  exact ⟨rfl, rfl, rfl, rfl⟩

theorem C2_landed_melt_step_witness :
    Snowflake.update plainEnv meltSys meltingFlakeSlow halfRng =
      ({ meltingFlakeSlow with
          meltAlpha := meltingFlakeSlow.meltAlpha - meltSys.config.meltSpeed },
       halfRng) ∧
    (Snowflake.update plainEnv meltSys meltingFlakeSlow halfRng).1.meltAlpha =
      99/200 := by
  have h := C2_landed_melt_step plainEnv meltSys meltingFlakeSlow halfRng rfl
    (by norm_num [meltSys, testConfig, meltingFlakeSlow, meltingFlake])
  refine ⟨h.1, ?_⟩
  rw [h.2.2.2]
  norm_num [meltSys, testConfig, meltingFlakeSlow, meltingFlake]

/-- Claim C2 fails as stated: a LANDED particle with meltOpacity 1/1000
(which is > 0) under meltSpeed 1/200 respawns within the step, moving its
position and not decrementing meltOpacity by meltSpeed. -/
theorem C2_counterexample :
    meltingFlake.landed = true ∧ 0 < meltingFlake.meltAlpha ∧
    (Snowflake.update plainEnv meltSys meltingFlake halfRng).1.y ≠ meltingFlake.y ∧
    (Snowflake.update plainEnv meltSys meltingFlake halfRng).1.meltAlpha ≠
      meltingFlake.meltAlpha - meltSys.config.meltSpeed := by
  refine ⟨rfl, ?_, ?_, ?_⟩ <;>
    norm_num [Snowflake.update, Snowflake.init, Snowflake.move, Snowflake.collide,
      Snowflake.collideStep, Rng.next, plainEnv, meltSys, meltingFlake, halfRng,
      testConfig]

/-- Claim C4 (corrected): start spawns exactly flakeCount particles, but
every one of them is a mid-field spawn (the constructor is invoked with
isNew = false): each initial y is a fresh uniform draw scaled across the
full height, not the new-spawn y = -20. -/
theorem C4_spawn_count_and_midfield (sys : SysState) (g : Rng) (hb : g.Bounded)
    (hh : 0 < sys.height) :
    (SnowSystem.spawnFlakes sys g).1.length = sys.config.flakeCount ∧
    ∀ f ∈ (SnowSystem.spawnFlakes sys g).1,
      f.landed = false ∧ 0 ≤ f.y ∧ f.y < sys.height ∧
      ∃ r, 0 ≤ r ∧ r < 1 ∧ f.y = r * sys.height := by
  obtain ⟨hlen, hmem⟩ :=
    SnowSystem.spawnFlakesAux_spec sys sys.config.flakeCount g hb
  refine ⟨hlen, ?_⟩
  intro f hf
  obtain ⟨hl, r, h0, h1, hy⟩ := hmem f hf
  refine ⟨hl, ?_, ?_, r, h0, h1, hy⟩
  · rw [hy]
    exact mul_nonneg h0 (le_of_lt hh)
  · rw [hy]
    nlinarith

theorem C4_spawn_count_and_midfield_witness :
    (SnowSystem.spawnFlakes spawnSys halfRng).1.length = spawnSys.config.flakeCount ∧
    ∀ f ∈ (SnowSystem.spawnFlakes spawnSys halfRng).1,
      f.landed = false ∧ 0 ≤ f.y ∧ f.y < spawnSys.height ∧
      ∃ r, 0 ≤ r ∧ r < 1 ∧ f.y = r * spawnSys.height :=
  C4_spawn_count_and_midfield spawnSys halfRng halfRng_bounded (by norm_num [spawnSys])

/-- Claim C4 fails as stated: with flakeCount 1, height 100 and draws 1/2,
the single initial particle starts at y = 50, not y = -20. -/
theorem C4_counterexample :
    (SnowSystem.spawnFlakes spawnSys halfRng).1.length = spawnSys.config.flakeCount ∧
    ((SnowSystem.spawnFlakes spawnSys halfRng).1.map Snowflake.y) = [50] ∧
    ((50 : ℚ) ≠ -20) := by
  refine ⟨rfl, ?_, by norm_num⟩
  norm_num [SnowSystem.spawnFlakes, SnowSystem.spawnFlakesAux, Snowflake.init,
    Rng.next, spawnSys, halfRng, testConfig]

/-- Claim C6: starting while already running is a no-op, and start is
idempotent: a second start call (with any options, window and draws)
returns the state of the first call unchanged. -/
theorem C6_idempotent_start (s : SysState) (o : ConfigOptions) (w : WindowEnv)
    (g : Rng) (o2 : ConfigOptions) (w2 : WindowEnv) (g2 : Rng) :
    (s.isRunning = true → SnowSystem.init s o w g = (s, g)) ∧
    SnowSystem.init (SnowSystem.init s o w g).1 o2 w2 g2 =
      ((SnowSystem.init s o w g).1, g2) := by
  refine ⟨fun h => SnowSystem.init_of_running s o w g h, ?_⟩
  exact SnowSystem.init_of_running _ o2 w2 g2 (SnowSystem.init_isRunning s o w g)

theorem C6_idempotent_start_witness :
    SnowSystem.init meltSys emptyOptions plainWin halfRng = (meltSys, halfRng) :=
  (C6_idempotent_start meltSys emptyOptions plainWin halfRng emptyOptions plainWin
    halfRng).1 rfl

/-- Claim C8: with mouseInteraction disabled, the pointer position has no
effect: updates that differ only in the pointer coordinates produce
identical particle states and identical draw streams. -/
theorem C8_mouse_off_no_effect (env : MathEnv) (sys : SysState) (f : Snowflake)
    (g : Rng) (ax ay bx b2y : ℚ) (h : sys.config.mouseInteraction = false) :
    Snowflake.update env { sys with mouseX := ax, mouseY := ay } f g =
    Snowflake.update env { sys with mouseX := bx, mouseY := b2y } f g := by
  unfold Snowflake.update
  rw [Snowflake.move_mouse_irrelevant env sys f ax ay bx b2y h]
  rfl

theorem C8_mouse_off_no_effect_witness :
    Snowflake.update plainEnv { meltSys with mouseX := 3, mouseY := 4 }
      fallingFlake halfRng =
    Snowflake.update plainEnv { meltSys with mouseX := 7, mouseY := 8 }
      fallingFlake halfRng :=
  C8_mouse_off_no_effect plainEnv meltSys fallingFlake halfRng 3 4 7 8 rfl

/-- Claim C10: a bottom-edge respawn does not end the frame: the update is
the collision pass applied to the fresh spawn, so the particle can land in
the very update call in which it respawned; a melt-triggered respawn
returns immediately, with no movement and no collision pass. -/
theorem C10_bottom_respawn_continues (env : MathEnv) (sys : SysState)
    (f : Snowflake) (g : Rng) :
    (f.landed = false → (Snowflake.move env sys f).y > sys.height →
      Snowflake.update env sys f g =
        Snowflake.collide sys (Snowflake.init sys true g)) ∧
    (f.landed = true → f.meltAlpha - sys.config.meltSpeed ≤ 0 →
      Snowflake.update env sys f g = Snowflake.init sys true g) :=
  ⟨fun h hy => Snowflake.update_falling_respawn env sys f g h hy,
   fun h hm => Snowflake.update_landed_respawn env sys f g h hm⟩

theorem C10_bottom_respawn_continues_witness :
    (Snowflake.update plainEnv topObsSys bottomFlake halfRng =
      Snowflake.collide topObsSys (Snowflake.init topObsSys true halfRng)) ∧
    (Snowflake.update plainEnv topObsSys bottomFlake halfRng).1.landed = true ∧
    bottomFlake.landed = false ∧
    Snowflake.update plainEnv meltSys meltingFlake2 halfRng =
      Snowflake.init meltSys true halfRng := by
  refine ⟨(C10_bottom_respawn_continues plainEnv topObsSys bottomFlake halfRng).1
      rfl (by norm_num [Snowflake.move, plainEnv, topObsSys, meltSys, bottomFlake,
        testConfig]),
    ?_, rfl,
    (C10_bottom_respawn_continues plainEnv meltSys meltingFlake2 halfRng).2
      rfl (by norm_num [meltingFlake2, meltingFlake, meltSys, testConfig])⟩
  norm_num [Snowflake.update, Snowflake.init, Snowflake.move, Snowflake.collide,
    Snowflake.collideStep, Rng.next, plainEnv, topObsSys, meltSys, bottomFlake,
    halfRng, testConfig, topObs]

/-- Claim C1: both respawn triggers (falling past the bottom edge, and a
melt reaching zero) reinitialize the particle in place via the new-spawn
rule, and the new spawn has y = -20, z an affine image of a fresh uniform
draw inside the interval from 0.1 inclusive to 1 exclusive,
size = sizeBase * z, x a fresh draw scaled across the width,
vy = gravity * z plus a draw in the interval from 0 to 0.5,
vx a draw in the interval from -0.25 to 0.25, opacity and melt opacity
reset to 1, landed reset to false, and stackOffset a draw scaled into
the interval from 0 to 4. -/
theorem C1_respawn_is_new_spawn (env : MathEnv) (sys : SysState) (f : Snowflake)
    (g : Rng) (hb : g.Bounded) :
    (f.landed = true → f.meltAlpha - sys.config.meltSpeed ≤ 0 →
      Snowflake.update env sys f g = Snowflake.init sys true g) ∧
    (f.landed = false → (Snowflake.move env sys f).y > sys.height →
      ((Snowflake.update env sys f g).1.z = (Snowflake.init sys true g).1.z ∧
       (Snowflake.update env sys f g).1.size = (Snowflake.init sys true g).1.size ∧
       (Snowflake.update env sys f g).1.x = (Snowflake.init sys true g).1.x ∧
       (Snowflake.update env sys f g).1.vy = (Snowflake.init sys true g).1.vy ∧
       (Snowflake.update env sys f g).1.vx = (Snowflake.init sys true g).1.vx ∧
       (Snowflake.update env sys f g).1.alpha = (Snowflake.init sys true g).1.alpha ∧
       (Snowflake.update env sys f g).1.meltAlpha = (Snowflake.init sys true g).1.meltAlpha ∧
       (Snowflake.update env sys f g).1.stackOffset =
         (Snowflake.init sys true g).1.stackOffset)) ∧
    ((Snowflake.init sys true g).1.y = -20 ∧
     (Snowflake.init sys true g).1.z = g.stream g.idx * (9/10) + 1/10 ∧
     1/10 ≤ (Snowflake.init sys true g).1.z ∧ (Snowflake.init sys true g).1.z < 1 ∧
     (Snowflake.init sys true g).1.size =
       sys.config.sizeBase * (Snowflake.init sys true g).1.z ∧
     (Snowflake.init sys true g).1.x = g.stream (g.idx + 1) * sys.width ∧
     (Snowflake.init sys true g).1.vy =
       sys.config.gravity * (Snowflake.init sys true g).1.z +
         g.stream (g.idx + 2) * (1/2) ∧
     0 ≤ g.stream (g.idx + 2) * (1/2) ∧ g.stream (g.idx + 2) * (1/2) < 1/2 ∧
     (Snowflake.init sys true g).1.vx = (g.stream (g.idx + 3) - 1/2) * (1/2) ∧
     -(1/4) ≤ (Snowflake.init sys true g).1.vx ∧
     (Snowflake.init sys true g).1.vx < 1/4 ∧
     (Snowflake.init sys true g).1.alpha = 1 ∧
     (Snowflake.init sys true g).1.meltAlpha = 1 ∧
     (Snowflake.init sys true g).1.landed = false ∧
     (Snowflake.init sys true g).1.stackOffset = g.stream (g.idx + 4) * 4 ∧
     0 ≤ (Snowflake.init sys true g).1.stackOffset ∧
     (Snowflake.init sys true g).1.stackOffset < 4) := by
  refine ⟨fun h hm => Snowflake.update_landed_respawn env sys f g h hm, ?_, ?_⟩
  · intro h hy
    rw [Snowflake.update_falling_respawn env sys f g h hy]
    obtain ⟨a, b, g', hc⟩ := Snowflake.collide_shape sys (Snowflake.init sys true g)
    rw [hc]
    exact ⟨rfl, rfl, rfl, rfl, rfl, rfl, rfl, rfl⟩
  · rw [Snowflake.init_true_eq]
    obtain ⟨h0a, h0b⟩ := hb g.idx
    obtain ⟨h2a, h2b⟩ := hb (g.idx + 2)
    obtain ⟨h3a, h3b⟩ := hb (g.idx + 3)
    obtain ⟨h4a, h4b⟩ := hb (g.idx + 4)
    dsimp only
    refine ⟨rfl, rfl, by nlinarith, by nlinarith, rfl, rfl, rfl, by nlinarith,
      by nlinarith, rfl, by nlinarith, by nlinarith, rfl, rfl, rfl, rfl,
      by nlinarith, by nlinarith⟩

theorem C1_respawn_is_new_spawn_witness :
    Snowflake.update plainEnv meltSys meltingFlake halfRng =
      Snowflake.init meltSys true halfRng ∧
    (Snowflake.init meltSys true halfRng).1.y = -20 ∧
    (Snowflake.init meltSys true halfRng).1.z = 11/20 ∧
    (Snowflake.init meltSys true halfRng).1.landed = false := by
  have h := C1_respawn_is_new_spawn plainEnv meltSys meltingFlake halfRng halfRng_bounded
  refine ⟨h.1 rfl (by norm_num [meltingFlake, meltSys, testConfig]), ?_, ?_, ?_⟩ <;>
    norm_num [Snowflake.init, Rng.next, meltSys, testConfig, halfRng]

/-- Claim C3 (corrected): a FALLING particle with stickiness 1 and z = 0.5
that ends its integration step inside a qualifying obstacle lands within
that very frame; when that obstacle is the only one in the obstacle set,
y is snapped exactly to its landY.  (As stated the claim fails: with a
second overlapping obstacle later in the iteration order, y is re-snapped
and does not end at the named obstacle's landY.) -/
theorem C3_deterministic_landing (env : MathEnv) (sys : SysState) (f : Snowflake)
    (g : Rng) (hb : g.Bounded) (hl : f.landed = false)
    (hs : sys.config.stickiness = 1) (hz : f.z = 1/2)
    (hy : (Snowflake.move env sys f).y ≤ sys.height)
    (obs : Obstacle) (hmem : obs ∈ sys.obstacles)
    (hq : Qualifies obs (Snowflake.move env sys f)) :
    (Snowflake.update env sys f g).1.landed = true ∧
    (sys.obstacles = [obs] →
      (Snowflake.update env sys f g).1.y =
        obs.top - f.size * (1/2) + f.stackOffset) := by
  have hy' : ¬ (Snowflake.move env sys f).y > sys.height := not_lt.mpr hy
  rw [Snowflake.update_falling_stay env sys f g hl hy']
  obtain ⟨mx, my, hmv⟩ := Snowflake.move_shape env sys f
  have hzgt : ((Snowflake.move env sys f, g) : Snowflake × Rng).1.z > 2/5 := by
    dsimp only
    rw [hmv]
    show f.z > 2/5
    rw [hz]
    norm_num
  unfold Snowflake.collide
  rw [if_pos hzgt]
  constructor
  · exact collideFold_lands sys.config (le_of_eq hs.symm) sys.obstacles
      (Snowflake.move env sys f, g) hb ⟨obs, hmem, hq⟩
  · intro hobs
    rw [hobs, List.foldl_cons, List.foldl_nil]
    have hr : ((Snowflake.move env sys f, g) : Snowflake × Rng).2.stream
        ((Snowflake.move env sys f, g) : Snowflake × Rng).2.idx <
          sys.config.stickiness := by
      dsimp only
      rw [hs]
      exact (hb g.idx).2
    rw [Snowflake.collideStep_of_qualifies sys.config _ obs hq hr]
    dsimp only
    rw [hmv]

theorem C3_deterministic_landing_witness :
    (Snowflake.update plainEnv oneObsSys fallingFlake halfRng).1.landed = true ∧
    (oneObsSys.obstacles = [obsTop50] →
      (Snowflake.update plainEnv oneObsSys fallingFlake halfRng).1.y =
        obsTop50.top - fallingFlake.size * (1/2) + fallingFlake.stackOffset) :=
  C3_deterministic_landing plainEnv oneObsSys fallingFlake halfRng halfRng_bounded
    rfl rfl rfl
    (by norm_num [Snowflake.move, plainEnv, oneObsSys, meltSys, fallingFlake, testConfig])
    obsTop50 (List.Mem.head _)
    (by norm_num [Qualifies, Snowflake.move, plainEnv, oneObsSys, meltSys,
      fallingFlake, testConfig, obsTop50])

/-- Claim C3 fails as stated: with two overlapping obstacles both
qualifying after integration, the final y is not the landY of the first
(the named) qualifying obstacle. -/
theorem C3_counterexample :
    twoObsSys.config.stickiness = 1 ∧ fallingFlake.landed = false ∧
    fallingFlake.z = 1/2 ∧
    Qualifies obsTop50 (Snowflake.move plainEnv twoObsSys fallingFlake) ∧
    (Snowflake.move plainEnv twoObsSys fallingFlake).y ≤ twoObsSys.height ∧
    (Snowflake.update plainEnv twoObsSys fallingFlake halfRng).1.y ≠
      obsTop50.top - fallingFlake.size * (1/2) + fallingFlake.stackOffset := by
  refine ⟨rfl, rfl, rfl, ?_, ?_, ?_⟩ <;>
    norm_num [Qualifies, Snowflake.update, Snowflake.init, Snowflake.move,
      Snowflake.collide, Snowflake.collideStep, Rng.next, plainEnv, twoObsSys,
      meltSys, fallingFlake, halfRng, testConfig, obsTop50, obsTop48]

/-- Claim C5 (corrected): the first qualifying hit does set LANDED and the
flag stays set, but the loop has no early exit: each later obstacle whose
span contains x and whose window contains the current (re-snapped) y rolls
again and re-snaps, so with two overlapping qualifying obstacles the final
y is the landY of the second (last) one, not the first. -/
theorem C5_last_hit_wins (env : MathEnv) (sys : SysState) (f : Snowflake)
    (g : Rng) (hb : g.Bounded) (hl : f.landed = false)
    (hs : sys.config.stickiness = 1) (hz : 2/5 < f.z)
    (hy : (Snowflake.move env sys f).y ≤ sys.height)
    (o1 o2 : Obstacle) (hobs : sys.obstacles = [o1, o2])
    (hq1 : Qualifies o1 (Snowflake.move env sys f))
    (hx2 : o2.left < (Snowflake.move env sys f).x ∧
           (Snowflake.move env sys f).x < o2.right)
    (hw2 : o2.top - f.size * (1/2) + f.stackOffset ≤
             o1.top - f.size * (1/2) + f.stackOffset ∧
           o1.top - f.size * (1/2) + f.stackOffset ≤
             o2.top - f.size * (1/2) + f.stackOffset + 10) :
    (Snowflake.update env sys f g).1.landed = true ∧
    (Snowflake.update env sys f g).1.y =
      o2.top - f.size * (1/2) + f.stackOffset := by
  have hy' : ¬ (Snowflake.move env sys f).y > sys.height := not_lt.mpr hy
  rw [Snowflake.update_falling_stay env sys f g hl hy']
  obtain ⟨mx, my, hmv⟩ := Snowflake.move_shape env sys f
  have hzgt : ((Snowflake.move env sys f, g) : Snowflake × Rng).1.z > 2/5 := by
    dsimp only
    rw [hmv]
    exact hz
  unfold Snowflake.collide
  rw [if_pos hzgt, hobs, List.foldl_cons, List.foldl_cons, List.foldl_nil]
  have hr1 : ((Snowflake.move env sys f, g) : Snowflake × Rng).2.stream
      ((Snowflake.move env sys f, g) : Snowflake × Rng).2.idx <
        sys.config.stickiness := by
    dsimp only
    rw [hs]
    exact (hb g.idx).2
  rw [Snowflake.collideStep_of_qualifies sys.config _ o1 hq1 hr1]
  have hsz : (Snowflake.move env sys f).size = f.size := by rw [hmv]
  have hso : (Snowflake.move env sys f).stackOffset = f.stackOffset := by rw [hmv]
  have hq2 : Qualifies o2
      (({ (Snowflake.move env sys f) with
          landed := true
          y := o1.top - (Snowflake.move env sys f).size * (1/2) +
            (Snowflake.move env sys f).stackOffset } : Snowflake),
        ({ g with idx := g.idx + 1 } : Rng)).1 := by
    dsimp only
    refine ⟨?_, ?_, ?_, ?_⟩
    · show o2.left < (Snowflake.move env sys f).x
      exact hx2.1
    · show (Snowflake.move env sys f).x < o2.right
      exact hx2.2
    · show o2.top - (Snowflake.move env sys f).size * (1/2) +
        (Snowflake.move env sys f).stackOffset ≤
          o1.top - (Snowflake.move env sys f).size * (1/2) +
            (Snowflake.move env sys f).stackOffset
      rw [hsz, hso]
      exact hw2.1
    · show o1.top - (Snowflake.move env sys f).size * (1/2) +
        (Snowflake.move env sys f).stackOffset ≤
          o2.top - (Snowflake.move env sys f).size * (1/2) +
            (Snowflake.move env sys f).stackOffset + 10
      rw [hsz, hso]
      exact hw2.2
  have hr2 : (({ (Snowflake.move env sys f) with
          landed := true
          y := o1.top - (Snowflake.move env sys f).size * (1/2) +
            (Snowflake.move env sys f).stackOffset } : Snowflake),
        ({ g with idx := g.idx + 1 } : Rng)).2.stream
      (({ (Snowflake.move env sys f) with
          landed := true
          y := o1.top - (Snowflake.move env sys f).size * (1/2) +
            (Snowflake.move env sys f).stackOffset } : Snowflake),
        ({ g with idx := g.idx + 1 } : Rng)).2.idx < sys.config.stickiness := by
    dsimp only
    rw [hs]
    exact (hb (g.idx + 1)).2
  rw [Snowflake.collideStep_of_qualifies sys.config _ o2 hq2 hr2]
  dsimp only
  rw [hsz, hso]
  exact ⟨rfl, rfl⟩

theorem C5_last_hit_wins_witness :
    (Snowflake.update plainEnv overlapSys fallingFlake halfRng).1.landed = true ∧
    (Snowflake.update plainEnv overlapSys fallingFlake halfRng).1.y =
      obsTop47.top - fallingFlake.size * (1/2) + fallingFlake.stackOffset :=
  C5_last_hit_wins plainEnv overlapSys fallingFlake halfRng halfRng_bounded
    rfl rfl (by norm_num [fallingFlake])
    (by norm_num [Snowflake.move, plainEnv, overlapSys, meltSys, fallingFlake,
      testConfig])
    obsTop50 obsTop47 rfl
    (by norm_num [Qualifies, Snowflake.move, plainEnv, overlapSys, meltSys,
      fallingFlake, testConfig, obsTop50])
    (by norm_num [Snowflake.move, plainEnv, overlapSys, meltSys, fallingFlake,
      testConfig, obsTop47])
    (by norm_num [fallingFlake, obsTop50, obsTop47])

/-- Claim C5 fails as stated: both obstacles qualify after integration,
yet the final y is the second obstacle's landY, not the first's. -/
theorem C5_counterexample :
    overlapSys.obstacles = [obsTop50, obsTop47] ∧
    Qualifies obsTop50 (Snowflake.move plainEnv overlapSys fallingFlake) ∧
    Qualifies obsTop47 (Snowflake.move plainEnv overlapSys fallingFlake) ∧
    (Snowflake.update plainEnv overlapSys fallingFlake halfRng).1.y ≠
      obsTop50.top - fallingFlake.size * (1/2) + fallingFlake.stackOffset ∧
    (Snowflake.update plainEnv overlapSys fallingFlake halfRng).1.y =
      obsTop47.top - fallingFlake.size * (1/2) + fallingFlake.stackOffset := by
  refine ⟨rfl, ?_, ?_, ?_, ?_⟩ <;>
    norm_num [Qualifies, Snowflake.update, Snowflake.init, Snowflake.move,
      Snowflake.collide, Snowflake.collideStep, Rng.next, plainEnv, overlapSys,
      meltSys, fallingFlake, halfRng, testConfig, obsTop50, obsTop47]

/-- Claim C7: from any spawn (either mode) and after any number of frames,
with any per-frame environments and system snapshots sharing the
configuration, z stays inside the interval from 0.1 inclusive to 1
exclusive and size = sizeBase * z. -/
theorem C7_depth_size_invariant (envs : ℕ → MathEnv) (syss : ℕ → SysState)
    (sys0 : SysState) (g : Rng) (isNew : Bool) (n : ℕ) (hb : g.Bounded)
    (hc : ∀ k, (syss k).config = sys0.config) :
    SizeInv sys0.config
      (Snowflake.updateSteps envs syss n (Snowflake.init sys0 isNew g)).1 := by
  apply Snowflake.updateSteps_sizeInv envs syss sys0.config hc
  · intro k
    rw [Snowflake.init_stream]
    exact hb k
  · exact Snowflake.init_sizeInv sys0 isNew g hb

theorem C7_depth_size_invariant_witness :
    SizeInv topObsSys.config
      (Snowflake.updateSteps (fun _ => plainEnv) (fun _ => topObsSys) 2
        (Snowflake.init topObsSys false halfRng)).1 :=
  C7_depth_size_invariant (fun _ => plainEnv) (fun _ => topObsSys) topObsSys
    halfRng false 2 halfRng_bounded (fun _ => rfl)

/-- Claim C9 (corrected): the repulsion point defaults to the sentinel
(-999, -999), and for any radius at most 994 no particle of the tracked
region (x at least -5, y at least -20) is within the radius of the
sentinel, so repulsion contributes no displacement; but this does not hold
for every positive radius: a radius of 2000 reaches visible particles. -/
theorem C9_sentinel_no_repulsion (env : MathEnv) (sys : SysState) (f : Snowflake)
    (g : Rng)
    (hsq : ∀ q, 0 ≤ q → 0 ≤ env.sqrt q ∧ ∀ c, 0 ≤ c → env.sqrt q < c → q < c * c)
    (hmx : sys.mouseX = -999) (hmy : sys.mouseY = -999)
    (hr : sys.config.mouseRepulsionRadius ≤ 994)
    (hx : -5 ≤ f.x) (hy : -20 ≤ f.y) :
    SnowSystem.new.mouseX = -999 ∧ SnowSystem.new.mouseY = -999 ∧
    Snowflake.update env sys f g =
      Snowflake.update env
        { sys with config := { sys.config with mouseInteraction := false } } f g := by
  refine ⟨rfl, rfl, ?_⟩
  unfold Snowflake.update
  rw [Snowflake.move_no_repulsion env sys f
    (sentinel_far env sys f hsq hmx hmy hr hx hy)]
  rfl

theorem C9_sentinel_no_repulsion_witness :
    SnowSystem.new.mouseX = -999 ∧ SnowSystem.new.mouseY = -999 ∧
    Snowflake.update specEnv sentinelSys originFlake halfRng =
      Snowflake.update specEnv
        { sentinelSys with
            config := { sentinelSys.config with mouseInteraction := false } }
        originFlake halfRng :=
  C9_sentinel_no_repulsion specEnv sentinelSys originFlake halfRng
    specSqrt_spec rfl rfl
    (by norm_num [sentinelSys, meltSys, testConfig])
    (by norm_num [originFlake]) (by norm_num [originFlake])

/-- Claim C9 fails as stated: with the sentinel pointer and the positive
radius 2000, a particle of the tracked region at (30, -19) is within the
radius (its distance is exactly 1421), and the repulsion term does move
it: the update differs from the same update with mouse interaction off. -/
theorem C9_counterexample :
    wideSys.mouseX = -999 ∧ wideSys.mouseY = -999 ∧
    (0 : ℚ) < wideSys.config.mouseRepulsionRadius ∧
    (-5 : ℚ) ≤ farFlake.x ∧ (-20 : ℚ) ≤ farFlake.y ∧
    exactSqrtEnv.sqrt ((farFlake.x - wideSys.mouseX) * (farFlake.x - wideSys.mouseX) +
        (farFlake.y - wideSys.mouseY) * (farFlake.y - wideSys.mouseY)) <
      wideSys.config.mouseRepulsionRadius ∧
    (Snowflake.update exactSqrtEnv wideSys farFlake halfRng).1.x ≠
      (Snowflake.update exactSqrtEnv wideSysOff farFlake halfRng).1.x := by
  refine ⟨rfl, rfl, ?_, ?_, ?_, ?_, ?_⟩ <;>
    norm_num [Snowflake.update, Snowflake.init, Snowflake.move, Snowflake.collide,
      Snowflake.collideStep, Rng.next, exactSqrtEnv, plainEnv, wideSys, wideSysOff,
      meltSys, testConfig, farFlake, originFlake, halfRng]
